/-
Verification of the post-lifecycle orchestrator ("python-po").

Shallow embedding of the repository's core modules:
  * src/db.py               — Item Store (posts table, audit log, queries)
  * src/poster.py           — Dispatch Engine (`Poster._do_post`, `_build_post_text`)
  * src/platforms/base.py   — Channel Adapter boundary (`BasePlatform.post`)
  * src/platforms/twitter.py— `TwitterPlatform._truncate`
  * src/platforms/instagram.py — `InstagramPlatform.post_text`
  * src/approval/telegram_bot.py — Approval Orchestrator
    (`process_callback`, `_auto_approve`)

Conventions of the embedding:
  * Python strings holding content (topic, summary, link, …) are `List Char`,
    so Python slicing (`s[:n]`, including negative indices) is modelled exactly.
  * Status strings stay `String`.
  * ISO-8601 UTC timestamp strings are modelled as `Nat` ticks; lexicographic
    comparison of ISO strings agrees with the numeric order of the instants,
    which is all the source relies on.
  * Database writes, channel invocations and alerts are recorded as explicit
    events so that "performs no write / makes no call" is a statement about
    the event trace.
  * Fallible or exception-throwing adapter calls are modelled with an
    `Outcome` that is either a structured result or a raised message.
-/
import Mathlib

namespace PyPo

/-! ### Python string primitives (content text as `List Char`) -/

/-- Python `s[:n]` for an `Int` index: a negative `n` counts from the end
(`s[:-k] = s[0 : len s - k]`, empty when `k ≥ len s`). -/
def pyTake (n : Int) (s : List Char) : List Char :=
  if 0 ≤ n then s.take n.toNat else s.take (s.length - (-n).toNat)

/-- `"\n\n"` -/
def nl2 : List Char := ['\n', '\n']

/-- `"..."` -/
def dots : List Char := ['.', '.', '.']

/-- Python truthiness of an optional string argument (`if arg:`):
`None` and the empty string are falsy. -/
def truthy : Option String → Bool
  | none => false
  | some s => !s.isEmpty

/-! ### Item Store data model (src/db.py, `posts` table and audit log) -/

/-- One row of the `posts` table (src/db.py:45-88). -/
structure Post where
  id : Nat
  topic : List Char
  summary : List Char
  full_content : List Char
  link : List Char
  image_url : List Char
  video_url : List Char
  status : String
  priority : String
  approved_by : Option String
  approved_at : Option Nat
  approval_type : Option String
  rejection_reason : Option String
  source : String
  tags : List String
  created_at : Nat
  updated_at : Nat
  scheduled_for : Option Nat
  completed_at : Option Nat
  error_message : Option String
  retry_count : Nat
  deriving DecidableEq, Repr

/-- The JSON `details` payload written by `update_post_status`
(src/db.py:306-312). -/
structure AuditDetails where
  approved_by : Option String
  approval_type : Option String
  rejection_reason : Option String
  deriving DecidableEq, Repr

/-- One row of the append-only `audit_log` table (src/db.py:116-126). -/
structure AuditEntry where
  post_id : Nat
  action : String
  details : AuditDetails
  timestamp : Nat
  deriving DecidableEq, Repr

/-- `db.update_post_status` (src/db.py:256-315): updates the post row and
appends one audit entry.  The SQL `UPDATE` touches exactly the fields whose
keyword argument is truthy, plus `status`/`updated_at` always, `approved_at`
together with `approval_type`, and `completed_at` for the two statuses listed
on src/db.py:288.  Returns the updated row and the audit entry. -/
def update_post_status (p : Post) (status : String)
    (approved_by approval_type rejection_reason error_message : Option String)
    (now : Nat) : Post × AuditEntry :=
  let p := { p with status := status, updated_at := now }
  let p := if truthy approved_by then { p with approved_by := approved_by } else p
  let p := if truthy approval_type then
      { p with approval_type := approval_type, approved_at := some now } else p
  let p := if truthy rejection_reason then
      { p with rejection_reason := rejection_reason } else p
  let p := if truthy error_message then
      { p with error_message := error_message } else p
  let p := if status = "completed" ∨ status = "partial_failure" then
      { p with completed_at := some now } else p
  (p, { post_id := p.id, action := status,
        details := { approved_by := approved_by, approval_type := approval_type,
                     rejection_reason := rejection_reason },
        timestamp := now })

/-! ### `get_pending_posts` — the spec's `approved_ready(now)` (src/db.py:222-240) -/

/-- The `CASE priority` expression of the query (src/db.py:231-235).
`high`/`normal`/`low` map to 1/2/3; any other value yields SQL `NULL`,
which sorts before every integer in ascending order, modelled as 0. -/
def priorityRank (p : String) : Nat :=
  if p = "high" then 1 else if p = "normal" then 2
  else if p = "low" then 3 else 0

/-- The `WHERE` clause of the query (src/db.py:228-229): status in
{approved, auto_approved} and `scheduled_for IS NULL OR scheduled_for <= now`. -/
def pendingFilter (now : Nat) (p : Post) : Bool :=
  (p.status == "approved" || p.status == "auto_approved") &&
    (match p.scheduled_for with
     | none => true
     | some t => decide (t ≤ now))

/-- The `ORDER BY` relation of the query (src/db.py:230-236): by priority
rank, then by `created_at` ascending. -/
def postLE (a b : Post) : Prop :=
  priorityRank a.priority < priorityRank b.priority ∨
    (priorityRank a.priority = priorityRank b.priority ∧ a.created_at ≤ b.created_at)

instance : DecidableRel postLE := fun a b => by
  unfold postLE; infer_instance

instance : IsTotal Post postLE := by
  constructor
  intro a b
  rcases Nat.lt_trichotomy (priorityRank a.priority) (priorityRank b.priority) with h | h | h
  · exact Or.inl (Or.inl h)
  · rcases Nat.le_total a.created_at b.created_at with h' | h'
    · exact Or.inl (Or.inr ⟨h, h'⟩)
    · exact Or.inr (Or.inr ⟨h.symm, h'⟩)
  · exact Or.inr (Or.inl h)

instance : IsTrans Post postLE := by
  constructor
  intro a b c hab hbc
  rcases hab with h1 | ⟨h1, h1'⟩
  · rcases hbc with h2 | ⟨h2, _⟩
    · exact Or.inl (h1.trans h2)
    · exact Or.inl (h2 ▸ h1)
  · rcases hbc with h2 | ⟨h2, h2'⟩
    · exact Or.inl (h1 ▸ h2)
    · exact Or.inr ⟨h1.trans h2, h1'.trans h2'⟩

/-- `db.get_pending_posts` (src/db.py:222-240), the spec's
`approved_ready(now)`: filter by the `WHERE` clause, order by the
`ORDER BY` key.  The table contents are passed in as a list of rows. -/
def get_pending_posts (posts : List Post) (now : Nat) : List Post :=
  List.insertionSort postLE (posts.filter (pendingFilter now))

/-! ### The §4.1 state machine, written from the spec's words
(spec-side definition, used only to state that the store does NOT
enforce it). -/

/-- Modelled from the spec §4.1: `pending → {approved, auto_approved} →
posting → {completed, partial_failure, failed}`; `pending → rejected`. -/
def specValidTransition (fromS toS : String) : Bool :=
  (fromS == "pending" &&
    (toS == "approved" || toS == "auto_approved" || toS == "rejected")) ||
  ((fromS == "approved" || fromS == "auto_approved") && toS == "posting") ||
  (fromS == "posting" &&
    (toS == "completed" || toS == "partial_failure" || toS == "failed"))

/-! ### Channel Adapter boundary (src/platforms/base.py) -/

/-- `PostResult` (src/platforms/base.py:14-21). -/
structure PostResult where
  success : Bool
  platform : String
  platform_post_id : Option String
  platform_url : Option String
  error_message : Option String
  deriving DecidableEq, Repr

/-- Behaviour of one adapter method (`post_text` / `post_image`): either it
returns a structured `PostResult`, or it raises an unexpected exception whose
`str(e)` is the given message. -/
inductive Outcome where
  | returns (r : PostResult)
  | raises (msg : String)
  deriving DecidableEq, Repr

/-- One configured channel: its name and the behaviour of its two adapter
methods for the item being dispatched. -/
structure Channel where
  name : String
  onText : Outcome
  onImage : Outcome
  deriving DecidableEq, Repr

/-- `BasePlatform.post` (src/platforms/base.py:60-81): dispatches to
`post_image` when an image path is supplied (Python truthiness — the caller
only ever passes `None` or a non-empty string) else `post_text`, and catches
any exception, turning it into a failed `PostResult` carrying `str(e)`. -/
def platform_post (c : Channel) (imagePresent : Bool) : PostResult :=
  match (if imagePresent then c.onImage else c.onText) with
  | .returns r => r
  | .raises msg =>
      { success := false, platform := c.name, platform_post_id := none,
        platform_url := none, error_message := some msg }

/-- `InstagramPlatform.post_text` (src/platforms/instagram.py:51-61):
Instagram cannot post without an image; the adapter returns a structured
failure (`success=False`), not a `skipped` outcome, despite its docstring. -/
def instagram_post_text_result : PostResult :=
  { success := false, platform := "instagram", platform_post_id := none,
    platform_url := none,
    error_message := some "Instagram requires an image for posting" }

/-! ### Dispatch Engine (src/poster.py, `Poster._do_post`) -/

/-- Observable effects of one dispatch run.  `postStatus` is a
`db.update_post_status` call (which also appends an audit entry, see
`update_post_status` above); `platformStatus` is a
`db.update_platform_status` call; `channelCall` is an invocation of
`platform.post`; the two alert constructors are the notifier calls.
(The Slack/Telegram summary sends of src/poster.py:218-230 are external
I/O with no store effect and are not part of the alphabet.) -/
inductive Event where
  | postStatus (post_id : Nat) (status : String) (error_message : Option String)
  | platformStatus (post_id : Nat) (platform : String) (status : String)
      (error_message : Option String)
  | channelCall (platform : String)
  | alertPostFailed (post_id : Nat) (platform : String)
  | alertAllFailed (post_id : Nat)
  deriving DecidableEq, Repr

/-- Image-path selection for one channel (src/poster.py:152-158):
the processed image for that channel if present and non-empty, else the
item's original `image_url` if non-empty, else nothing. -/
def imagePathFor (processed : List (String × List Char))
    (image_url : List Char) (name : String) : Option (List Char) :=
  match processed.lookup name with
  | some p =>
      if !p.isEmpty then some p
      else if !image_url.isEmpty then some image_url else none
  | none => if !image_url.isEmpty then some image_url else none

/-- The adapter result obtained for one channel during the dispatch loop. -/
def channelResult (pst : Post) (processed : List (String × List Char))
    (c : Channel) : PostResult :=
  platform_post c (imagePathFor processed pst.image_url c.name).isSome

/-- Events of one iteration of the per-channel loop
(src/poster.py:146-200): mark the attempt `posting`, call the adapter,
record `published` or `failed` (the latter also fires a per-channel
failure alert). -/
def channelEvents (post_id : Nat) (pst : Post)
    (processed : List (String × List Char)) (c : Channel) : List Event :=
  let r := channelResult pst processed c
  [.platformStatus post_id c.name "posting" none, .channelCall c.name] ++
    (if r.success then
      [.platformStatus post_id c.name "published" none]
    else
      [.platformStatus post_id c.name "failed" r.error_message,
       .alertPostFailed post_id c.name])

/-- The dispatch loop, channel by channel in configuration order
(src/poster.py:146-200). -/
def eventsOfChannels (post_id : Nat) (pst : Post)
    (processed : List (String × List Char)) : List Channel → List Event
  | [] => []
  | c :: cs =>
      channelEvents post_id pst processed c ++
        eventsOfChannels post_id pst processed cs

/-- `success_count` accumulated by the loop (src/poster.py:170-171). -/
def successCount (pst : Post) (processed : List (String × List Char)) :
    List Channel → Nat
  | [] => 0
  | c :: cs =>
      (if (channelResult pst processed c).success then 1 else 0) +
        successCount pst processed cs

/-- Result of one `_do_post` run: the in-flight set after the run and the
event trace. -/
structure DispatchOut where
  inProgress : List Nat
  events : List Event
  deriving DecidableEq, Repr

/-- `Poster._do_post` (src/poster.py:119-243).

* Entry guard (lines 121-125): if the id is already in
  `_posting_in_progress` the call returns immediately — no writes, no calls.
* Otherwise the id is added, the body runs inside `try`, and the `finally`
  (line 242-243) discards the id again on every exit path.  The in-flight
  set is a Python `set`; at this point the id is not in the list, so
  add-then-discard is `(id :: s).erase id`.
* `post?` is the result of `db.get_post`; `none` models a missing row
  (early `return`, line 129-131).
* `crash = some msg` models an unexpected exception raised inside the body
  after the `posting` transition (e.g. by the media processor): the
  `except` handler (lines 232-241) records status `failed` with the
  exception text, and the `finally` still releases the guard.
* Otherwise the loop runs over every enabled channel and the aggregate is
  computed from `success_count`/`total_count` (lines 202-216). -/
def do_post (posting_in_progress : List Nat) (post? : Option Post)
    (processed : List (String × List Char)) (channels : List Channel)
    (crash : Option String) (post_id : Nat) : DispatchOut :=
  if post_id ∈ posting_in_progress then
    { inProgress := posting_in_progress, events := [] }
  else
    let events :=
      match post? with
      | none => []
      | some pst =>
        match crash with
        | some msg =>
            [.postStatus post_id "posting" none,
             .postStatus post_id "failed" (some msg)]
        | none =>
            let total := channels.length
            let succ := successCount pst processed channels
            let aggEvents :=
              if succ = total then [Event.postStatus post_id "completed" none]
              else if succ > 0 then
                [Event.postStatus post_id "partial_failure" none]
              else
                [Event.postStatus post_id "failed" none,
                 Event.alertAllFailed post_id]
            [Event.postStatus post_id "posting" none] ++
              eventsOfChannels post_id pst processed channels ++ aggEvents
    { inProgress := (post_id :: posting_in_progress).erase post_id,
      events := events }

/-! ### Text building (src/poster.py `_build_post_text`,
src/platforms/twitter.py `_truncate`) -/

/-- `Poster._build_post_text` (src/poster.py:245-285). -/
def build_post_text (pst : Post) (platform : String) : List Char :=
  let topic := pst.topic
  let summary := pst.summary
  let link := pst.link
  if platform = "twitter" then
    let max_text : Nat := if !link.isEmpty then 253 else 280
    let text := topic ++ nl2 ++ summary
    if text.length > max_text then
      topic ++ nl2 ++ pyTake ((max_text : Int) - topic.length - 5) summary ++ dots
    else text
  else if platform = "instagram" then
    let text := topic ++ nl2 ++ summary
    let text := if !pst.full_content.isEmpty then
        text ++ nl2 ++ pst.full_content else text
    let text := if !link.isEmpty then
        text ++ ("\n\n🔗 Link in bio".toList) else text
    text.take 2200
  else if platform = "linkedin" then
    let text := topic ++ nl2 ++ summary
    let text := if !pst.full_content.isEmpty then
        text ++ nl2 ++ pst.full_content else text
    text.take 3000
  else
    let text := topic ++ nl2 ++ summary
    let text := if !pst.full_content.isEmpty then
        text ++ nl2 ++ pst.full_content else text
    let text := if !link.isEmpty then
        text ++ ("\n\n🔗 ".toList) ++ link else text
    text.take 5000

/-- `TwitterPlatform._truncate` (src/platforms/twitter.py:57-68):
with a link, keep at most `max_len - 24` characters of text (ellipsised)
and append `"\n" + link`; without one, ellipsise to `max_len`. -/
def twitter_truncate (text link : List Char) (max_len : Nat) : List Char :=
  if !link.isEmpty then
    let available := max_len - 24
    let text := if text.length > available then
        text.take (available - 3) ++ dots else text
    text ++ '\n' :: link
  else
    if text.length > max_len then text.take (max_len - 3) ++ dots
    else text

/-- The tweet text actually sent for an item: `_do_post` builds the text
with `_build_post_text(post, "twitter")` (src/poster.py:150) and
`TwitterPlatform.post_text` passes it through `_truncate` with the item's
link (src/platforms/twitter.py:73). -/
def twitter_tweet_text (pst : Post) : List Char :=
  twitter_truncate (build_post_text pst "twitter") pst.link 280

/-! ### Approval Orchestrator (src/approval/telegram_bot.py) -/

/-- One value of the `_pending_approvals` dict (src/approval/telegram_bot.py:139-144,
continuations and timer handle abstracted: which continuation runs is
recorded in the event trace). -/
structure PendingEntry where
  post_id : Nat
  deriving DecidableEq, Repr

/-- Observable effects of handling a decision.  `postStatusUpdate` is a
`db.update_post_status` call — per `update_post_status` above, it both
writes the Item row and appends one `AuditEntry`.  `contApproved` /
`contRejected` / `contAuto` are the three continuations. -/
inductive BotEvent where
  | editMessage (msg_id : Nat)
  | postStatusUpdate (post_id : Nat) (status : String)
  | contApproved (post_id : Nat)
  | contRejected (post_id : Nat)
  | contAuto (post_id : Nat)
  deriving DecidableEq, Repr

/-- `TelegramBot.process_callback` (src/approval/telegram_bot.py:217-261),
as the sequential function it is when no timer interleaves: look the handle
up in `_pending_approvals`; if absent, log and return (no events); else
cancel the timer, delete the entry, and run the branch for the action.
The `_pending_approvals` dict is an association list keyed by `msg_id`. -/
def process_callback (pending : List (Nat × PendingEntry)) (action : String)
    (post_id msg_id : Nat) : List (Nat × PendingEntry) × List BotEvent :=
  match pending.lookup msg_id with
  | none => (pending, [])
  | some _ =>
    let pending := pending.eraseP (fun kv => kv.1 == msg_id)
    if action = "approve" then
      (pending, [.editMessage msg_id, .postStatusUpdate post_id "approved",
                 .contApproved post_id])
    else if action = "reject" then
      (pending, [.editMessage msg_id, .postStatusUpdate post_id "rejected",
                 .contRejected post_id])
    else (pending, [])

/-! #### The decision-vs-timer race, as an interleaving model.

`process_callback` (the decision thread) and `_auto_approve` (the timer
thread) run concurrently against the shared `_pending_approvals` dict.
Under the interpreter, each single dict operation (`get`, `in`, `del`) is
atomic, but the check-then-delete sequences are not.  Each thread is a
list of atomic steps for one fixed handle:

decision thread A = `process_callback` (src/approval/telegram_bot.py:217-261):
  `aGet`    — `approval = self._pending_approvals.get(msg_id)` (line 223);
              if `None`, the rest of the thread is a no-op (line 224-226)
  `aCancel` — `timer.cancel()` (lines 229-231)
  `aDel`    — `del self._pending_approvals[msg_id]` (line 234); raises
              `KeyError` if the entry is already gone, aborting the thread
  `aCont`   — edit + DB update + continuation (lines 236-261)

timer thread B = `_auto_approve` (src/approval/telegram_bot.py:190-215):
  `bCheck`  — `if msg_id not in self._pending_approvals: return` (192-193)
  `bDel`    — `del self._pending_approvals[msg_id]` (line 198); same
              `KeyError` abort
  `bCont`   — edit + DB update + `callback(post_id)` (lines 201-215)

The model over-approximates: it also runs the timer thread in schedules
where the real timer would already have been cancelled, which only adds
behaviours. -/

inductive Step where
  | aGet | aCancel | aDel | aCont | bCheck | bDel | bCont
  deriving DecidableEq, Repr

/-- Shared + thread-local state for one handle's race. `present` is
"the handle is in `_pending_approvals`"; `conts` counts executed
continuations; `deadA`/`deadB` record an uncaught `KeyError`. -/
structure RaceState where
  present : Bool
  foundA : Bool
  foundB : Bool
  deadA : Bool
  deadB : Bool
  conts : Nat
  deriving DecidableEq, Repr

def raceStep (s : RaceState) : Step → RaceState
  | .aGet => { s with foundA := s.present }
  | .aCancel => s
  | .aDel =>
      if s.foundA && !s.deadA then
        if s.present then { s with present := false } else { s with deadA := true }
      else s
  | .aCont =>
      if s.foundA && !s.deadA then { s with conts := s.conts + 1 } else s
  | .bCheck => { s with foundB := s.present }
  | .bDel =>
      if s.foundB && !s.deadB then
        if s.present then { s with present := false } else { s with deadB := true }
      else s
  | .bCont =>
      if s.foundB && !s.deadB then { s with conts := s.conts + 1 } else s

/-- Initial state: the approval is registered and its timer armed. -/
def raceInit : RaceState :=
  { present := true, foundA := false, foundB := false,
    deadA := false, deadB := false, conts := 0 }

/-- The decision thread's atomic steps, in program order. -/
def progA : List Step := [.aGet, .aCancel, .aDel, .aCont]

/-- The timer thread's atomic steps, in program order. -/
def progB : List Step := [.bCheck, .bDel, .bCont]

/-- All interleavings of two step sequences (each thread's own order is
preserved).  The first argument is recursion fuel, at least the combined
length of the two sequences; it makes the recursion structural so that the
enumeration evaluates inside the kernel. -/
def merges : Nat → List Step → List Step → List (List Step)
  | 0, _, _ => []
  | _ + 1, [], ys => [ys]
  | _ + 1, x :: xs, [] => [x :: xs]
  | n + 1, x :: xs, y :: ys =>
      (merges n xs (y :: ys)).map (x :: ·) ++
        (merges n (x :: xs) ys).map (y :: ·)

/-- Every schedule of the race: both threads fire in any interleaving,
only the decision arrives (timer cancelled in time), or only the timer
fires (no human decision). -/
def allRaceRuns : List (List Step) := merges 8 progA progB ++ [progA, progB]

/-- Run one schedule from the armed state. -/
def runRace (l : List Step) : RaceState := l.foldl raceStep raceInit

/-- A concrete `pending` post used in several closed theorems. -/
def samplePost : Post :=
  { id := 1, topic := ['t'], summary := ['s'], full_content := [], link := [],
    image_url := [], video_url := [], status := "pending", priority := "normal",
    approved_by := none, approved_at := none, approval_type := none,
    rejection_reason := none, source := "webhook", tags := [],
    created_at := 0, updated_at := 0, scheduled_for := none,
    completed_at := none, error_message := none, retry_count := 0 }

/-- The status string carried by an event, if any (used to state that a
trace never records a `skipped` attempt). -/
def eventStatus : Event → Option String
  | .postStatus _ st _ => some st
  | .platformStatus _ _ st _ => some st
  | _ => none

/-- An enabled `instagram` channel whose `post_text` behaves as the source
does (src/platforms/instagram.py:51-61); the `post_image` behaviour is
irrelevant when the item has no image and is left abstract. -/
def instagramChannel (onImg : Outcome) : Channel :=
  { name := "instagram", onText := .returns instagram_post_text_result,
    onImage := onImg }

/-- The adapter method `BasePlatform.post` selects for a channel during a
given dispatch (`post_image` when an image path is available, else
`post_text`) — src/platforms/base.py:71-74. -/
def adapterOutcome (pst : Post) (processed : List (String × List Char))
    (c : Channel) : Outcome :=
  if (imagePathFor processed pst.image_url c.name).isSome then c.onImage
  else c.onText

/-- A post with a long topic and summary and a 31-character link, used to
exhibit a tweet longer than 280 literal characters. -/
def longLinkPost : Post :=
  { samplePost with
    topic := List.replicate 100 'a',
    summary := List.replicate 200 'b',
    link := List.replicate 31 'c' }

/-!
## Theorems
-/

/-- Helper: if the selected adapter method raises, `BasePlatform.post`
returns a failed result carrying the exception text
(src/platforms/base.py:75-81). -/
theorem channelResult_of_raises (pst : Post)
    (processed : List (String × List Char)) (c : Channel) (msg : String)
    (h : adapterOutcome pst processed c = .raises msg) :
    channelResult pst processed c =
      { success := false, platform := c.name, platform_post_id := none,
        platform_url := none, error_message := some msg } := by
  unfold adapterOutcome at h
  unfold channelResult platform_post
  rw [h]

/-- Helper: every channel of the list is invoked by the dispatch loop. -/
theorem channelCall_mem_eventsOfChannels (post_id : Nat) (pst : Post)
    (processed : List (String × List Char)) :
    ∀ channels : List Channel, ∀ c ∈ channels,
      Event.channelCall c.name ∈ eventsOfChannels post_id pst processed channels := by
  intro channels
  induction channels with
  | nil => intro c hc; cases hc
  | cons d cs ih =>
      intro c hc
      rcases List.mem_cons.mp hc with rfl | hc
      · exact List.mem_append_left _ (by simp [channelEvents])
      · exact List.mem_append_right _ (ih c hc)

/-- Helper: a raising channel's attempt is recorded `failed` with the
exception text by the dispatch loop. -/
theorem raises_recorded_failed (post_id : Nat) (pst : Post)
    (processed : List (String × List Char)) :
    ∀ channels : List Channel, ∀ c ∈ channels, ∀ msg : String,
      adapterOutcome pst processed c = .raises msg →
      Event.platformStatus post_id c.name "failed" (some msg) ∈
        eventsOfChannels post_id pst processed channels := by
  intro channels
  induction channels with
  | nil => intro c hc; cases hc
  | cons d cs ih =>
      intro c hc msg hmsg
      rcases List.mem_cons.mp hc with rfl | hc
      · refine List.mem_append_left _ ?_
        have hr := channelResult_of_raises pst processed c msg hmsg
        simp [channelEvents, hr]
      · exact List.mem_append_right _ (ih c hc msg hmsg)

/-- C1 (counterexample): `update_post_status` performs no reachability
validation.  At the concrete input "item currently `completed`, requested
new status `pending`" — an unreachable transition in the §4.1 state
machine — the operation neither rejects nor ignores the request: it
applies the status and appends an audit entry recording it, so the audit
trail records an invalid transition. -/
theorem C1_unvalidated_transition_counterexample :
    specValidTransition "completed" "pending" = false ∧
    (update_post_status { samplePost with status := "completed" } "pending"
        none none none none 5).1.status = "pending" ∧
    (update_post_status { samplePost with status := "completed" } "pending"
        none none none none 5).2.action = "pending" :=
  ⟨by decide, by decide, by decide⟩

/-- C1 (amended): `update_post_status` (src/db.py:256-315) applies any
requested status unconditionally — it never consults the current status —
and appends one audit entry whose action is the requested status.  Any
validity of the recorded status sequence is the callers' responsibility,
not enforced by the Item Store. -/
theorem C1_transition_applies_unconditionally (p : Post) (status : String)
    (ab aty rr em : Option String) (now : Nat) :
    (update_post_status p status ab aty rr em now).1.status = status ∧
    (update_post_status p status ab aty rr em now).2.action = status ∧
    (update_post_status p status ab aty rr em now).2.post_id = p.id := by
  refine ⟨?_, ?_, ?_⟩
  all_goals simp only [update_post_status]
  all_goals try (split_ifs <;> simp)

/-- C8 (counterexample): entering the terminal state `failed` does NOT
stamp `completed_at` — the stamping condition on src/db.py:288 lists only
`completed` and `partial_failure`.  Concretely, transitioning
`samplePost` to `failed` at time 9 leaves `completed_at` at `none`. -/
theorem C8_failed_not_stamped_counterexample :
    (update_post_status samplePost "failed" none none none none 9).1.status
        = "failed" ∧
    (update_post_status samplePost "failed" none none none none 9).1.completed_at
        = none :=
  ⟨by decide, by decide⟩

/-- C8 (amended): `update_post_status` stamps `completed_at := now` when
the requested status is `completed` or `partial_failure`, and leaves
`completed_at` unchanged when the requested status is `failed`. -/
theorem C8_completed_at_stamping (p : Post) (ab aty rr em : Option String)
    (now : Nat) :
    (update_post_status p "completed" ab aty rr em now).1.completed_at
        = some now ∧
    (update_post_status p "partial_failure" ab aty rr em now).1.completed_at
        = some now ∧
    (update_post_status p "failed" ab aty rr em now).1.completed_at
        = p.completed_at := by
  refine ⟨?_, ?_, ?_⟩
  all_goals simp only [update_post_status]
  all_goals try (split_ifs <;> simp_all)

/-- C5: a decision arriving for a handle that is no longer in
`_pending_approvals` (already resolved) is silently dropped: the handler
returns with the table unchanged and an empty event trace — no
continuation runs, no Item status transition is made, no audit entry is
appended, and (being a total function on this branch) nothing is thrown
(src/approval/telegram_bot.py:223-226). -/
theorem C5_late_decision_dropped (pending : List (Nat × PendingEntry))
    (action : String) (post_id msg_id : Nat)
    (h : pending.lookup msg_id = none) :
    process_callback pending action post_id msg_id = (pending, []) := by
  unfold process_callback
  rw [h]

/-- Witness for C5 at the concrete input: empty pending table, an
`approve` decision for handle 2. -/
theorem C5_late_decision_dropped_witness :
    ([] : List (Nat × PendingEntry)).lookup 2 = none ∧
    process_callback [] "approve" 1 2 = ([], []) :=
  ⟨rfl, C5_late_decision_dropped [] "approve" 1 2 rfl⟩

/-- C4: for an item with an armed auto-approval timer, every schedule of
the decision thread (`process_callback`) against the timer thread
(`_auto_approve`) — all 35 interleavings of their atomic dict operations,
plus the decision-only and timer-only schedules — executes exactly one
continuation.  Whichever thread's atomic `del` succeeds owns the decision;
the loser's `del` raises and aborts before its continuation. -/
theorem C4_exactly_one_continuation :
    ∀ l ∈ allRaceRuns, (runRace l).conts = 1 := by decide

/-- Witness for C4 at a concrete schedule in which the timer wins the race
after the decision thread has already found the entry present. -/
theorem C4_exactly_one_continuation_witness :
    [Step.bCheck, .aGet, .bDel, .bCont, .aCancel, .aDel, .aCont] ∈ allRaceRuns ∧
    (runRace [Step.bCheck, .aGet, .bDel, .bCont, .aCancel, .aDel, .aCont]).conts
      = 1 :=
  ⟨by decide, C4_exactly_one_continuation _ (by decide)⟩

/-- C2 (code evaluated at the failing input): dispatching an item with no
image to the one enabled media-requiring channel (`instagram`) produces
the full trace below — the attempt is recorded `failed` with the adapter's
error text and counted in the denominator, and the aggregate item status
is `failed`.  No event ever carries status `skipped`, contradicting the
claim (and the `skipped` status declared in the schema on src/db.py:98 and
instagram's own docstring "Return skipped result",
src/platforms/instagram.py:53-55). -/
theorem C2_no_image_aggregates_failed (onImg : Outcome) :
    (do_post [] (some samplePost) [] [instagramChannel onImg] none 1).events =
      [.postStatus 1 "posting" none,
       .platformStatus 1 "instagram" "posting" none,
       .channelCall "instagram",
       .platformStatus 1 "instagram" "failed"
         (some "Instagram requires an image for posting"),
       .alertPostFailed 1 "instagram",
       .postStatus 1 "failed" none,
       .alertAllFailed 1] ∧
    ∀ e ∈ (do_post [] (some samplePost) [] [instagramChannel onImg] none 1).events,
      eventStatus e ≠ some "skipped" := by
  have h1 : (do_post [] (some samplePost) [] [instagramChannel onImg] none 1).events =
      [.postStatus 1 "posting" none,
       .platformStatus 1 "instagram" "posting" none,
       .channelCall "instagram",
       .platformStatus 1 "instagram" "failed"
         (some "Instagram requires an image for posting"),
       .alertPostFailed 1 "instagram",
       .postStatus 1 "failed" none,
       .alertAllFailed 1] := rfl
  refine ⟨h1, ?_⟩
  rw [h1]
  decide

/-- C3: the in-flight guard of `_do_post` (src/poster.py:121-125,242-243).
First conjunct: a call for an id already in `_posting_in_progress` is a
no-op — the set is unchanged and the event trace empty (no Item or
ChannelAttempt write, no channel call), and the model is a total function
(no exception).  Second conjunct: on every exit path — id in flight,
missing row, unexpected exception (`crash`), or a normal run — the
in-flight set after the run equals the set before it, so the id added at
entry is always removed by the `finally`.  Third conjunct: in particular
an id not in flight before the call is not in flight after it. -/
theorem C3_inflight_guard (s : List Nat) (post? : Option Post)
    (processed : List (String × List Char)) (channels : List Channel)
    (crash : Option String) (post_id : Nat) :
    (post_id ∈ s →
      do_post s post? processed channels crash post_id =
        { inProgress := s, events := [] }) ∧
    (do_post s post? processed channels crash post_id).inProgress = s ∧
    (post_id ∉ s →
      post_id ∉ (do_post s post? processed channels crash post_id).inProgress) := by
  have herase : (post_id :: s).erase post_id = s := by
    simp [List.erase_cons_head]
  refine ⟨?_, ?_, ?_⟩
  · intro h
    unfold do_post
    rw [if_pos h]
  · unfold do_post
    split
    · rfl
    · simp [herase]
  · intro h
    unfold do_post
    rw [if_neg h]
    simpa [herase] using h

/-- Witness for C3: a run for in-flight id 5 is a no-op, and a run for
fresh id 1 leaves 1 out of the in-flight set. -/
theorem C3_inflight_guard_witness :
    (5 : Nat) ∈ [5] ∧
    do_post [5] (some samplePost) [] [] none 5 =
      { inProgress := [5], events := [] } ∧
    (1 : Nat) ∉ [5] ∧
    1 ∉ (do_post [5] (some samplePost) [] [] none 1).inProgress :=
  ⟨by decide,
   (C3_inflight_guard [5] (some samplePost) [] [] none 5).1 (by decide),
   by decide,
   (C3_inflight_guard [5] (some samplePost) [] [] none 1).2.2 (by decide)⟩

/-- C6: a channel whose selected adapter method raises an unexpected
exception does not abort the dispatch: the exception is absorbed at the
`BasePlatform.post` boundary (src/platforms/base.py:75-81) into a failed
result carrying the exception text, that failure is recorded for the
channel, and every enabled channel of the run — before and after the
raising one — is still invoked. -/
theorem C6_adapter_exception_contained (s : List Nat) (pst : Post)
    (processed : List (String × List Char)) (channels : List Channel)
    (post_id : Nat) (h : post_id ∉ s) :
    (∀ c ∈ channels,
      Event.channelCall c.name ∈
        (do_post s (some pst) processed channels none post_id).events) ∧
    (∀ c ∈ channels, ∀ msg : String,
      adapterOutcome pst processed c = .raises msg →
      Event.platformStatus post_id c.name "failed" (some msg) ∈
        (do_post s (some pst) processed channels none post_id).events) := by
  have hevents :
      (do_post s (some pst) processed channels none post_id).events =
        [Event.postStatus post_id "posting" none] ++
          eventsOfChannels post_id pst processed channels ++
          (if successCount pst processed channels = channels.length then
            [Event.postStatus post_id "completed" none]
          else if successCount pst processed channels > 0 then
            [Event.postStatus post_id "partial_failure" none]
          else [Event.postStatus post_id "failed" none,
                Event.alertAllFailed post_id]) := by
    unfold do_post
    rw [if_neg h]
  constructor
  · intro c hc
    rw [hevents]
    exact List.mem_append_left _ (List.mem_append_right _
      (channelCall_mem_eventsOfChannels post_id pst processed channels c hc))
  · intro c hc msg hmsg
    rw [hevents]
    exact List.mem_append_left _ (List.mem_append_right _
      (raises_recorded_failed post_id pst processed channels c hc msg hmsg))

/-- Witness for C6: one enabled channel `x` whose `post_text` raises
`"boom"`, dispatched for an item with no image; the channel is called and
its attempt is recorded failed with text `"boom"`. -/
theorem C6_adapter_exception_contained_witness :
    (1 : Nat) ∉ ([] : List Nat) ∧
    Event.channelCall "x" ∈
      (do_post [] (some samplePost) []
        [⟨"x", .raises "boom", .raises "boom"⟩] none 1).events ∧
    Event.platformStatus 1 "x" "failed" (some "boom") ∈
      (do_post [] (some samplePost) []
        [⟨"x", .raises "boom", .raises "boom"⟩] none 1).events :=
  ⟨by decide,
   (C6_adapter_exception_contained [] samplePost []
      [⟨"x", .raises "boom", .raises "boom"⟩] 1 (by decide)).1
      ⟨"x", .raises "boom", .raises "boom"⟩ (by decide),
   (C6_adapter_exception_contained [] samplePost []
      [⟨"x", .raises "boom", .raises "boom"⟩] 1 (by decide)).2
      ⟨"x", .raises "boom", .raises "boom"⟩ (by decide) "boom" (by decide)⟩

/-- C7: `get_pending_posts` (the spec's `approved_ready(now)`) returns
exactly the rows whose status is `approved` or `auto_approved` and whose
`scheduled_for` is null or ≤ now — hence a row scheduled in the future is
excluded until that time — and its output is sorted by `postLE`: strictly
increasing priority rank (high = 1, normal = 2, low = 3) and, within equal
rank, ascending `created_at`. -/
theorem C7_approved_ready_query (posts : List Post) (now : Nat) :
    (∀ x, x ∈ get_pending_posts posts now ↔
      (x ∈ posts ∧ (x.status = "approved" ∨ x.status = "auto_approved") ∧
        (x.scheduled_for = none ∨ ∃ t, x.scheduled_for = some t ∧ t ≤ now))) ∧
    List.Sorted postLE (get_pending_posts posts now) := by
  constructor
  · intro x
    simp only [get_pending_posts, List.mem_insertionSort, List.mem_filter,
      pendingFilter, Bool.and_eq_true, Bool.or_eq_true, beq_iff_eq]
    cases hx : x.scheduled_for <;> simp [hx, and_assoc]
  · exact List.sorted_insertionSort postLE _

set_option maxRecDepth 4000 in
/-- C9 (counterexample): an item whose link is longer than 23 literal
characters can yield a tweet text of more than 280 literal characters:
with a 100-char topic, 200-char summary and a 31-char link the produced
text has 285 characters (253 of ellipsised text + newline + 31-char link —
the source budgets every link at Twitter's fixed URL weight of 23,
src/platforms/twitter.py:60-61). -/
theorem C9_over_280_counterexample :
    longLinkPost.link ≠ [] ∧
    (twitter_tweet_text longLinkPost).length = 285 ∧
    280 < (twitter_tweet_text longLinkPost).length :=
  ⟨by decide, by decide, by decide⟩

/-- Helper for C9: `TwitterPlatform._truncate` with a non-empty link keeps
at most 256 characters of text, then appends a newline and the whole link. -/
theorem twitter_truncate_spec (text link : List Char) (h : link ≠ []) :
    ∃ pre, twitter_truncate text link 280 = pre ++ link ∧
      (twitter_truncate text link 280).length ≤ 257 + link.length := by
  have hlink : link.isEmpty = false := by
    cases link with
    | nil => exact absurd rfl h
    | cons a l => rfl
  unfold twitter_truncate
  rw [hlink]
  simp only [Bool.not_false, if_true]
  by_cases hc : text.length > 280 - 24
  · rw [if_pos hc]
    refine ⟨(text.take (280 - 24 - 3) ++ dots) ++ ['\n'], by simp, ?_⟩
    have ht := List.length_take_le (280 - 24 - 3) text
    simp only [List.length_append, List.length_cons, List.length_nil, dots,
      List.length_take]
    omega
  · rw [if_neg hc]
    refine ⟨text ++ ['\n'], by simp, ?_⟩
    simp only [List.length_append, List.length_cons]
    omega

/-- C9 (amended): for every item with a (non-empty) link, the tweet text —
`_build_post_text(post, "twitter")` passed through
`TwitterPlatform._truncate` — always contains the item's full link (as a
suffix, preceded by a newline) and has at most `257 + length(link)`
literal characters; this is ≤ 280 exactly when the link is at most 23
characters, the fixed weight Twitter assigns to any URL. -/
theorem C9_twitter_link_truncation (pst : Post) (h : pst.link ≠ []) :
    ∃ pre, twitter_tweet_text pst = pre ++ pst.link ∧
      (twitter_tweet_text pst).length ≤ 257 + pst.link.length :=
  twitter_truncate_spec (build_post_text pst "twitter") pst.link h

/-- Witness for C9 at a concrete one-character link. -/
theorem C9_twitter_link_truncation_witness :
    ({ samplePost with link := ['x'] } : Post).link ≠ [] ∧
    ∃ pre, twitter_tweet_text { samplePost with link := ['x'] } =
        pre ++ ({ samplePost with link := ['x'] } : Post).link ∧
      (twitter_tweet_text { samplePost with link := ['x'] }).length ≤
        257 + ({ samplePost with link := ['x'] } : Post).link.length :=
  ⟨by decide, C9_twitter_link_truncation _ (by decide)⟩

/-- C10: dispatching an item when no channel is enabled (the
`ENABLED_PLATFORMS` list of src/config.py:101-112 is empty when no
credentials are configured) makes no channel call, records no channel
outcome, and transitions the item `posting` then `completed` — the
success count 0 equals the total count 0 (src/poster.py:203-204). -/
theorem C10_empty_channels_completed (s : List Nat) (pst : Post)
    (processed : List (String × List Char)) (post_id : Nat)
    (h : post_id ∉ s) :
    do_post s (some pst) processed [] none post_id =
      { inProgress := s,
        events := [.postStatus post_id "posting" none,
                   .postStatus post_id "completed" none] } := by
  unfold do_post
  rw [if_neg h]
  simp [eventsOfChannels, successCount, List.erase_cons_head]

/-- Witness for C10 at a concrete fresh id. -/
theorem C10_empty_channels_completed_witness :
    (1 : Nat) ∉ ([] : List Nat) ∧
    do_post [] (some samplePost) [] [] none 1 =
      { inProgress := [],
        events := [.postStatus 1 "posting" none,
                   .postStatus 1 "completed" none] } :=
  ⟨by decide, C10_empty_channels_completed [] samplePost [] 1 (by decide)⟩

end PyPo
